import Mathlib

/-!
Shallow embedding of the M-Pesa payment bridge (`mpesa.py`, `app.py`).

Python values appearing in JSON payloads are modelled by `Val`; Python dicts
are association lists looked up front-to-back (Python dicts have unique keys,
so first-match lookup is exact).  Exceptions are modelled with `Except PyErr`.
Network, clock and database effects are passed in explicitly as oracles, so
every definition is executable.
-/

/-- Python/JSON values as they occur in the vendor payloads. -/
inductive Val where
  | vnull
  | vbool (b : Bool)
  | vint (n : Int)
  | vstr (s : String)
  | vlist (xs : List Val)
  | vdict (entries : List (String × Val))

/-- Python exceptions raised by the modelled code. -/
inductive PyErr where
  | valueError (msg : String)
  | mpesaError (msg : String)
  | keyError (key : String)
  | attributeError
  | typeError
  | integrityError
  | dbError
  deriving DecidableEq

/-- First-match lookup in a modelled Python dict. -/
def lookupVal : List (String × Val) → String → Option Val
  | [], _ => none
  | (k, v) :: rest, key => if k = key then some v else lookupVal rest key

/-- Python `x == 0` for a modelled value (`0 == 0` and `False == 0` hold). -/
def pyEqZero : Val → Bool
  | .vint n => n == 0
  | .vbool b => !b
  | _ => false

/-- Python `x == s` against a string literal. -/
def valIsStr (v : Val) (s : String) : Bool :=
  match v with
  | .vstr t => t == s
  | _ => false

/-- Python `x is None` / NULL check at the database layer. -/
def isNull : Val → Bool
  | .vnull => true
  | _ => false

/-- Python `s.startswith(pre)`, computed on the character lists. -/
def pyStartsWith (s pre : String) : Bool :=
  pre.data.isPrefixOf s.data

/-! ## `normalize_phone_number` (mpesa.py lines 249-263) -/

/-- Python `str.lstrip('07')`: drop leading characters belonging to the set
`\x7b'0','7'\x7d` (not just one prefix occurrence). -/
def lstrip07 : List Char → List Char
  | [] => []
  | c :: cs => if c = '0' ∨ c = '7' then lstrip07 cs else c :: cs

/-- `normalize_phone_number`: keep the digit characters, then dispatch on the
leading digits exactly as the Python source does. -/
def normalize_phone_number (s : String) : Except PyErr String :=
  let p := s.data.filter Char.isDigit
  if ['2', '5', '4'].isPrefixOf p then
    .ok (String.mk p)
  else if ['0', '7'].isPrefixOf p || ['7'].isPrefixOf p then
    .ok (String.mk ('2' :: '5' :: '4' :: lstrip07 p))
  else
    .error (.valueError "Invalid phone number format. Must start with +254, 07, or 7.")

/-! ## `MPesaClient` token cache (`_get_mpesa_token`, mpesa.py lines 72-112) -/

/-- The mutable token cache of `MPesaClient` (`self.token`,
`self.token_expires_at`).  Time instants are minutes on an abstract clock. -/
structure ClientState where
  token : Option String
  tokenExpiresAt : Option Nat

/-- Outcome of one outbound token request: a `requests` failure, or a parsed
JSON body whose `access_token` entry may be absent. -/
inductive TokenFetch where
  | fetchFail
  | fetchOk (accessToken : Option String)

/-- Token lifetime used for the cache expiry (`timedelta(minutes=50)`). -/
def tokenLifetime : Nat := 50

/-- The Python guard `self.token and self.token_expires_at and
datetime.now() < self.token_expires_at` (an empty-string token is falsy,
a datetime object is always truthy). -/
def tokenValid (st : ClientState) (now : Nat) : Bool :=
  match st.token, st.tokenExpiresAt with
  | some t, some e => t != "" && now < e
  | _, _ => false

/-- `_get_mpesa_token`: return the cached token when still valid, otherwise
perform the network request (`fetch`).  The returned `Bool` records whether a
network request was performed. -/
def getMpesaToken (st : ClientState) (now : Nat) (fetch : TokenFetch) :
    ClientState × Bool × Except PyErr (Option String) :=
  if tokenValid st now then
    (st, false, .ok st.token)
  else
    match fetch with
    | .fetchFail => (st, true, .error (.mpesaError "Failed to generate M-Pesa token"))
    | .fetchOk accessToken =>
        ({ token := accessToken, tokenExpiresAt := some (now + tokenLifetime) },
         true, .ok accessToken)

/-! ## `send_stk_push` (mpesa.py lines 114-181) -/

/-- Outcome of the outbound STK-push POST: a `requests` failure, or a parsed
JSON body whose `CheckoutRequestID` entry may be absent. -/
inductive PushResp where
  | reqExn
  | okResp (checkoutRequestId : Option String)

/-- A value returned normally (not raised) by `send_stk_push`: either the
checkout-request id, or the `(jsonify(\x7b"error": ...\x7d), 400)` tuple built in
the `except ValueError` branch. -/
inductive SendResult where
  | checkoutId (s : Option String)
  | httpErrorResponse (err : String) (status : Nat)

/-- The part of `send_stk_push` after phone validation: amount check, token
fetch, outbound POST, checkout-id truthiness check. -/
def sendStkPushRest (st : ClientState) (now : Nat) (fetch : TokenFetch)
    (push : PushResp) (amount : Int) : Except PyErr SendResult :=
  if amount ≤ 0 then
    .error (.valueError "Amount must be a positive number")
  else
    match (getMpesaToken st now fetch).2.2 with
    | .error e => .error e
    | .ok _tok =>
      match push with
      | .reqExn => .error (.mpesaError "STK Push request failed")
      | .okResp cri =>
        match cri with
        | none => .error (.mpesaError "No CheckoutRequestID received")
        | some s =>
          if s = "" then .error (.mpesaError "No CheckoutRequestID received")
          else .ok (.checkoutId (some s))

/-- `send_stk_push`: when the phone number is falsy or does not start with
`254`, normalize it; a `ValueError` from normalization is caught and turned
into a normal `(jsonify, 400)` return value, exactly as in the source. -/
def send_stk_push (st : ClientState) (now : Nat) (fetch : TokenFetch)
    (push : PushResp) (phone_number : String) (amount : Int) : Except PyErr SendResult :=
  if phone_number = "" ∨ ¬ pyStartsWith phone_number "254" then
    match normalize_phone_number phone_number with
    | .error (.valueError msg) => .ok (.httpErrorResponse msg 400)
    | .error e => .error e
    | .ok pn =>
        let _ := pn
        sendStkPushRest st now fetch push amount
  else
    sendStkPushRest st now fetch push amount

/-! ## `query_transaction_status` (mpesa.py lines 183-247) -/

/-- One response of the vendor status endpoint: HTTP 500 (handled inline),
a `requests.RequestException` (non-500 error status or network failure), or a
2xx response with a parsed JSON body. -/
inductive VendorResp where
  | status500
  | reqExn
  | okResp (body : Val)

/-- The dict returned by `query_transaction_status` on success, built with
the `.get` defaults of the source. -/
structure StatusResult where
  result_code : Val
  result_desc : Val
  status_message : Val
  metadata : Val

/-- Build the status dict from the parsed response body entries. -/
def mkStatusResult (es : List (String × Val)) : StatusResult :=
  { result_code := (lookupVal es "ResultCode").getD .vnull,
    result_desc := (lookupVal es "ResultDesc").getD (.vstr "No description provided"),
    status_message := (lookupVal es "statusMessage").getD (.vstr "No message"),
    metadata := (lookupVal es "CallbackMetadata").getD (.vdict []) }

/-- Observable events of the retry loop: the n-th call to the vendor status
endpoint, and a `time.sleep` of the given number of seconds. -/
inductive QEvent where
  | attemptEv (n : Nat)
  | sleepEv (secs : Nat)
  deriving DecidableEq

/-- Number of vendor calls recorded in a trace. -/
def numAttempts (t : List QEvent) : Nat :=
  t.countP fun e => match e with | .attemptEv _ => true | _ => false

/-- Whether a query outcome is a raised `MPesaError` (the exception type the
source uses both for the exhausted-retries and the persistent-error path). -/
def isMpesaErr : Except PyErr StatusResult → Bool
  | .error (.mpesaError _) => true
  | _ => false

/-- `max_retries = 3` in the source. -/
def maxRetries : Nat := 3

/-- `retry_delay = 10` seconds in the source. -/
def retryDelay : Nat := 10

/-- The `for attempt in range(max_retries)` loop of
`query_transaction_status`, structurally recursive on the remaining
iterations (`fuel`).  `auth n` tells whether `_get_mpesa_token()` succeeds on
iteration `n` (on failure the `MPesaError` propagates immediately, before any
vendor call); `vendor n` is the vendor response to the n-th status POST.
A 500 status sleeps and retries; a `RequestException` on the last iteration
(no fuel remaining afterwards) raises, otherwise sleeps and retries;
falling out of the loop raises. -/
def queryGo (auth : Nat → Bool) (vendor : Nat → VendorResp) :
    Nat → Nat → List QEvent × Except PyErr StatusResult
  | 0, _ => ([], .error (.mpesaError "Unable to query transaction status after maximum retries"))
  | fuel + 1, attempt =>
    if auth attempt then
      match vendor attempt with
      | .status500 =>
        let r := queryGo auth vendor fuel (attempt + 1)
        (.attemptEv attempt :: .sleepEv retryDelay :: r.1, r.2)
      | .reqExn =>
        if fuel = 0 then
          ([.attemptEv attempt], .error (.mpesaError "Persistent API error"))
        else
          let r := queryGo auth vendor fuel (attempt + 1)
          (.attemptEv attempt :: .sleepEv retryDelay :: r.1, r.2)
      | .okResp body =>
        match body with
        | .vdict es => ([.attemptEv attempt], .ok (mkStatusResult es))
        | _ => ([.attemptEv attempt], .error .attributeError)
    else
      ([], .error (.mpesaError "Failed to generate M-Pesa token"))

/-- `query_transaction_status`: run the loop with all `max_retries`
iterations available, starting at attempt 0. -/
def query_transaction_status (auth : Nat → Bool) (vendor : Nat → VendorResp) :
    List QEvent × Except PyErr StatusResult :=
  queryGo auth vendor maxRetries 0

/-! ## `MPesaCallback.process_callback` (app.py lines 66-108) -/

/-- The `transaction_details` dict built by `process_callback`.  All fields
are initialized to `None` (`vnull`); the four success-only fields are updated
from the metadata items only when `result_code == 0`. -/
structure TransactionDetails where
  checkout_request_id : Val
  result_code : Val
  result_desc : Val
  amount : Val
  mpesa_receipt_number : Val
  transaction_date : Val
  phone_number : Val

/-- The dict as first constructed, with the four success-only fields `None`. -/
def initDetails (cri rc rd : Val) : TransactionDetails :=
  ⟨cri, rc, rd, .vnull, .vnull, .vnull, .vnull⟩

/-- The `for item in metadata_items` loop: each item must be a dict
(otherwise `item.get` raises `AttributeError`); the four recognized names
update the corresponding field, unrecognized names are ignored. -/
def procItems : List Val → TransactionDetails → Except PyErr TransactionDetails
  | [], td => .ok td
  | item :: rest, td =>
    match item with
    | .vdict es =>
      let name := (lookupVal es "Name").getD .vnull
      let value := (lookupVal es "Value").getD .vnull
      let td' :=
        if valIsStr name "Amount" then { td with amount := value }
        else if valIsStr name "MpesaReceiptNumber" then { td with mpesa_receipt_number := value }
        else if valIsStr name "TransactionDate" then { td with transaction_date := value }
        else if valIsStr name "PhoneNumber" then { td with phone_number := value }
        else td
      procItems rest td'
    | _ => .error .attributeError

/-- Iterating the value found under `Item`: a list iterates its elements; an
empty dict or empty string iterates zero times; a non-empty dict or string
yields non-dict items whose `.get` raises; anything else is not iterable. -/
def iterItems (v : Val) (td : TransactionDetails) : Except PyErr TransactionDetails :=
  match v with
  | .vlist items => procItems items td
  | .vdict [] => .ok td
  | .vdict (_ :: _) => .error .attributeError
  | .vstr s => if s = "" then .ok td else .error .attributeError
  | _ => .error .typeError

/-- The body of `process_callback` for the extracted `stkCallback` value. -/
def processStk (stk : Val) : Except PyErr TransactionDetails :=
  match stk with
  | .vdict es =>
    let td := initDetails ((lookupVal es "CheckoutRequestID").getD .vnull)
                          ((lookupVal es "ResultCode").getD .vnull)
                          ((lookupVal es "ResultDesc").getD .vnull)
    if pyEqZero td.result_code then
      match (lookupVal es "CallbackMetadata").getD (.vdict []) with
      | .vdict ms => iterItems ((lookupVal ms "Item").getD (.vlist [])) td
      | _ => .error .attributeError
    else
      .ok td
  | _ => .error .attributeError

/-- The `try` body of `process_callback`: descend `Body` → `stkCallback` with
`.get(..., \x7b\x7d)` defaults (a `.get` on a non-dict raises). -/
def processCallbackInner (cb : Val) : Except PyErr TransactionDetails :=
  match cb with
  | .vdict es =>
    match (lookupVal es "Body").getD (.vdict []) with
    | .vdict bs => processStk ((lookupVal bs "stkCallback").getD (.vdict []))
    | _ => .error .attributeError
  | _ => .error .attributeError

/-- `process_callback`: any exception inside the `try` block is collapsed
into `ValueError("Invalid callback data structure.")`. -/
def process_callback (cb : Val) : Except PyErr TransactionDetails :=
  match processCallbackInner cb with
  | .ok td => .ok td
  | .error _ => .error (.valueError "Invalid callback data structure.")

/-! ## `store_transaction_details` (app.py lines 217-234) and the
`Transaction` model (app.py lines 40-48) -/

/-- A stored `Transaction` row.  Per the model declaration,
`checkout_request_id`, `amount`, `mpesa_receipt_number`, `transaction_date`
and `phone_number` are nullable; `result_code` and `result_desc` are
`nullable=False`. -/
structure Row where
  checkout_request_id : Val
  result_code : Val
  result_desc : Val
  amount : Val
  mpesa_receipt_number : Val
  transaction_date : Val
  phone_number : Val

/-- `store_transaction_details` over a modelled database (the list of
committed rows).  The three fields read with `details["..."]` raise
`KeyError` when absent; the four read with `.get` default to `None`.  The
commit enforces the `nullable=False` columns (`IntegrityError`) and can also
fail for an external reason (`commitOk = false`).  Every failure path rolls
back, leaving the committed rows unchanged, and re-raises. -/
def store_transaction_details (db : List Row) (details : List (String × Val))
    (commitOk : Bool) : List Row × Except PyErr Unit :=
  match lookupVal details "checkout_request_id" with
  | none => (db, .error (.keyError "checkout_request_id"))
  | some cri =>
    match lookupVal details "result_code" with
    | none => (db, .error (.keyError "result_code"))
    | some rc =>
      match lookupVal details "result_desc" with
      | none => (db, .error (.keyError "result_desc"))
      | some rd =>
        let row : Row :=
          ⟨cri, rc, rd,
           (lookupVal details "amount").getD .vnull,
           (lookupVal details "mpesa_receipt_number").getD .vnull,
           (lookupVal details "transaction_date").getD .vnull,
           (lookupVal details "phone_number").getD .vnull⟩
        if isNull rc || isNull rd then (db, .error .integrityError)
        else if commitOk then (db ++ [row], .ok ())
        else (db, .error .dbError)

/-! ## The `/stream` SSE generator (app.py lines 200-215) -/

/-- What the `event_stream` generator yields: a `data:` line carrying a
transaction-details dict, or the keep-alive comment. -/
inductive StreamEvent where
  | dataEv (td : TransactionDetails)
  | keepAlive

/-- `event_stream`: the schedule lists the successive results of
`message_queue.get(timeout=10)` — `some td` for a delivered message, `none`
for a `queue.Empty` timeout.  The `while True` loop yields one `data:` event
per message; the `except queue.Empty` handler sits outside the loop, so the
first timeout yields one keep-alive and ends the generator (later schedule
entries are never consumed). -/
def event_stream : List (Option TransactionDetails) → List StreamEvent
  | [] => []
  | some td :: rest => .dataEv td :: event_stream rest
  | none :: _ => [.keepAlive]

/-! ## Concrete inputs used by counterexamples and witnesses -/

/-- A callback payload whose `stkCallback` lacks `CheckoutRequestID`. -/
def c2payload : Val :=
  .vdict [("Body", .vdict [("stkCallback", .vdict
    [("ResultCode", .vint 1), ("ResultDesc", .vstr "Failed")])])]

/-- `stkCallback` entries with `CheckoutRequestID` absent. -/
def c2sample : List (String × Val) :=
  [("ResultCode", .vint 1), ("ResultDesc", .vstr "Failed")]

/-- Transaction details carrying a `None` checkout_request_id. -/
def c3details : List (String × Val) :=
  [("checkout_request_id", .vnull), ("result_code", .vint 1), ("result_desc", .vstr "Failed")]

/-- Well-formed transaction details. -/
def c3okDetails : List (String × Val) :=
  [("checkout_request_id", .vstr "ws_CO_1"), ("result_code", .vint 0), ("result_desc", .vstr "ok")]

/-- The row stored for `c3okDetails`. -/
def c3okRow : Row :=
  ⟨.vstr "ws_CO_1", .vint 0, .vstr "ok", .vnull, .vnull, .vnull, .vnull⟩

/-- An outcome published on the queue after an idle-window timeout. -/
def c4outcome : TransactionDetails :=
  ⟨.vstr "ws_CO_9", .vint 0, .vstr "ok", .vnull, .vnull, .vnull, .vnull⟩

/-- A token oracle that always succeeds. -/
def c5auth : Nat → Bool := fun _ => true

/-- A vendor status endpoint that returns HTTP 500 on every call. -/
def c5vendor : Nat → VendorResp := fun _ => .status500

/-- A failed callback (`ResultCode` 1) that nevertheless carries metadata. -/
def c7payload : Val :=
  .vdict [("Body", .vdict [("stkCallback", .vdict
    [("CheckoutRequestID", .vstr "ws_CO_7"), ("ResultCode", .vint 1),
     ("ResultDesc", .vstr "Cancelled"),
     ("CallbackMetadata", .vdict [("Item", .vlist
       [.vdict [("Name", .vstr "Amount"), ("Value", .vint 500)]])])])])]

/-- The outcome `process_callback` builds for `c7payload`. -/
def c7details : TransactionDetails :=
  ⟨.vstr "ws_CO_7", .vint 1, .vstr "Cancelled", .vnull, .vnull, .vnull, .vnull⟩

/-- Well-formed transaction details for the rollback witness. -/
def c10details : List (String × Val) :=
  [("checkout_request_id", .vstr "ws_CO_2"), ("result_code", .vint 0), ("result_desc", .vstr "ok")]

/-! # Claim theorems -/

/-- C1: the claim says that for a trunk-prefix input `'0' ++ subscriber`
the result is `'254' ++ subscriber` with the subscriber length preserved,
and that stripping removes only the leading trunk marker.  The code uses
`lstrip('07')`, which also strips the subscriber number's own leading `7`:
on `"0712345678"` (subscriber `"712345678"`, 9 digits) it returns
`"25412345678"` (8 digits kept) instead of the claimed `"254712345678"`. -/
theorem normalize_lstrip_drops_subscriber_digits :
    normalize_phone_number "0712345678" = .ok "25412345678" ∧
    "25412345678" ≠ "254712345678" :=
  ⟨rfl, by decide⟩

/-- C2 counterexample: a payload whose `stkCallback` lacks
`CheckoutRequestID` does not make `process_callback` fail: it returns a
transaction-outcome record (with the field `None`), refuting the claim that
any missing required field yields a `MalformedCallback` error. -/
theorem process_callback_missing_id_returns_record :
    process_callback c2payload =
      .ok ⟨.vnull, .vint 1, .vstr "Failed", .vnull, .vnull, .vnull, .vnull⟩ ∧
    (process_callback c2payload).isOk = true :=
  ⟨rfl, rfl⟩

/-- C2 (amended): `process_callback` does not validate the three fields.
For any `stkCallback` entries in which `ResultCode` is absent or not
Python-equal to 0 (so the metadata branch is skipped), it succeeds and
returns the record with each of the three fields set to its looked-up value,
`None` when absent; `MalformedCallback` arises only from structural type
errors, never from a merely absent field. -/
theorem process_callback_absent_fields_tolerated (es : List (String × Val))
    (h : pyEqZero ((lookupVal es "ResultCode").getD .vnull) = false) :
    process_callback (.vdict [("Body", .vdict [("stkCallback", .vdict es)])]) =
      .ok (initDetails ((lookupVal es "CheckoutRequestID").getD .vnull)
                       ((lookupVal es "ResultCode").getD .vnull)
                       ((lookupVal es "ResultDesc").getD .vnull)) := by
  simp [process_callback, processCallbackInner, processStk, initDetails, lookupVal, h]

/-- Witness for the amended C2 theorem at a concrete payload. -/
theorem process_callback_absent_fields_tolerated_witness :
    pyEqZero ((lookupVal c2sample "ResultCode").getD .vnull) = false ∧
    process_callback (.vdict [("Body", .vdict [("stkCallback", .vdict c2sample)])]) =
      .ok (initDetails .vnull (.vint 1) (.vstr "Failed")) :=
  ⟨rfl, process_callback_absent_fields_tolerated c2sample rfl⟩

/-- C3 counterexample: the `checkout_request_id` column is `nullable=True`,
so the store accepts a record whose checkout_request_id is `None`, refuting
the claim that every accepted record has it present and non-empty. -/
theorem store_accepts_null_checkout_request_id :
    store_transaction_details [] c3details true =
      ([⟨.vnull, .vint 1, .vstr "Failed", .vnull, .vnull, .vnull, .vnull⟩], .ok ()) ∧
    isNull (⟨.vnull, .vint 1, .vstr "Failed", .vnull, .vnull, .vnull, .vnull⟩ : Row).checkout_request_id
      = true :=
  ⟨rfl, rfl⟩

/-- C3 (amended): the append enforces only that the `checkout_request_id`
key is present in the details dict (direct indexing raising `KeyError`
otherwise) and that `result_code` and `result_desc` are non-null
(`nullable=False` columns); the stored checkout_request_id value itself may
be null or empty. -/
theorem store_requires_key_presence_only (db : List Row) (d : List (String × Val))
    (c : Bool) (r : Row) (h : (store_transaction_details db d c).1 = db ++ [r]) :
    lookupVal d "checkout_request_id" = some r.checkout_request_id ∧
    isNull r.result_code = false ∧ isNull r.result_desc = false := by
  simp only [store_transaction_details] at h
  cases h1 : lookupVal d "checkout_request_id" with
  | none =>
    rw [h1] at h
    exact absurd (congrArg List.length h) (by simp)
  | some cri =>
    cases h2 : lookupVal d "result_code" with
    | none =>
      rw [h1, h2] at h
      exact absurd (congrArg List.length h) (by simp)
    | some rc =>
      cases h3 : lookupVal d "result_desc" with
      | none =>
        rw [h1, h2, h3] at h
        exact absurd (congrArg List.length h) (by simp)
      | some rd =>
        simp only [h1, h2, h3] at h
        by_cases hn : (isNull rc || isNull rd) = true
        · rw [if_pos hn] at h
          exact absurd (congrArg List.length h) (by simp)
        · rw [if_neg hn] at h
          cases c with
          | false =>
            rw [if_neg (by simp)] at h
            exact absurd (congrArg List.length h) (by simp)
          | true =>
            rw [if_pos rfl] at h
            have hr : r = ⟨cri, rc, rd,
                (lookupVal d "amount").getD .vnull,
                (lookupVal d "mpesa_receipt_number").getD .vnull,
                (lookupVal d "transaction_date").getD .vnull,
                (lookupVal d "phone_number").getD .vnull⟩ := by
              have := List.append_cancel_left h
              simpa using this.symm
            subst hr
            simp only [Bool.or_eq_true, not_or] at hn
            exact ⟨rfl, by simpa using hn.1, by simpa using hn.2⟩

/-- Witness for the amended C3 theorem at a concrete accepted record. -/
theorem store_requires_key_presence_only_witness :
    (store_transaction_details [] c3okDetails true).1 = [] ++ [c3okRow] ∧
    (lookupVal c3okDetails "checkout_request_id" = some c3okRow.checkout_request_id ∧
     isNull c3okRow.result_code = false ∧ isNull c3okRow.result_desc = false) :=
  ⟨rfl, store_requires_key_presence_only [] c3okDetails true c3okRow rfl⟩

/-- C4: the claim says a subscriber that is sent the keep-alive remains
subscribed, so an outcome published afterwards is still delivered.  In the
code the `except queue.Empty` handler is outside the `while` loop, so the
generator yields the keep-alive and terminates: with a schedule of one
timeout followed by a published outcome, the stream is exactly
`[keepAlive]` and the outcome is never delivered. -/
theorem event_stream_ends_after_keepalive :
    event_stream [none, some c4outcome] = [.keepAlive] :=
  rfl

/-- C5: against a vendor endpoint that errors on every call (HTTP 500 or a
request exception, in any combination), `query_transaction_status` performs
exactly 3 attempts separated by 10-second sleeps and raises `MPesaError`
(the single exception type the source uses for the exhausted-retry paths,
`GatewayUnavailable` in the spec's taxonomy); a fourth attempt never
happens. -/
theorem query_status_three_attempts_then_unavailable
    (auth : Nat → Bool) (vendor : Nat → VendorResp)
    (hauth : ∀ n, auth n = true)
    (hv : ∀ n, n < maxRetries → vendor n = .status500 ∨ vendor n = .reqExn) :
    [QEvent.attemptEv 0, .sleepEv 10, .attemptEv 1, .sleepEv 10, .attemptEv 2]
        <+: (query_transaction_status auth vendor).1 ∧
    numAttempts (query_transaction_status auth vendor).1 = maxRetries ∧
    isMpesaErr (query_transaction_status auth vendor).2 = true := by
  have h0 := hv 0 (by decide)
  have h1 := hv 1 (by decide)
  have h2 := hv 2 (by decide)
  rcases h0 with h0 | h0 <;> rcases h1 with h1 | h1 <;> rcases h2 with h2 | h2 <;>
    simp [query_transaction_status, queryGo, maxRetries, retryDelay, numAttempts, isMpesaErr,
      h0, h1, h2, hauth 0, hauth 1, hauth 2, List.IsPrefix]

/-- Witness for C5 with the always-500 vendor. -/
theorem query_status_three_attempts_then_unavailable_witness :
    [QEvent.attemptEv 0, .sleepEv 10, .attemptEv 1, .sleepEv 10, .attemptEv 2]
        <+: (query_transaction_status c5auth c5vendor).1 ∧
    numAttempts (query_transaction_status c5auth c5vendor).1 = maxRetries ∧
    isMpesaErr (query_transaction_status c5auth c5vendor).2 = true :=
  query_status_three_attempts_then_unavailable c5auth c5vendor
    (fun _ => rfl) (fun _ _ => Or.inl rfl)

/-- C6: if a cached token exists (non-empty, matching Python truthiness) and
its expiry instant has not passed, `_get_mpesa_token` returns it unchanged
and performs no network request; consequently two calls within the first
token's validity window perform exactly one underlying token request (the
first call's flag is `true`, the second call's is `false`). -/
theorem token_cache_hit_skips_network :
    (∀ (st : ClientState) (now : Nat) (fetch : TokenFetch) (t : String) (e : Nat),
      st.token = some t → t ≠ "" → st.tokenExpiresAt = some e → now < e →
      getMpesaToken st now fetch = (st, false, .ok (some t))) ∧
    (∀ (t : String) (now1 now2 : Nat) (fetch2 : TokenFetch),
      t ≠ "" → now2 < now1 + tokenLifetime →
      (getMpesaToken ⟨none, none⟩ now1 (.fetchOk (some t))).2.1 = true ∧
      getMpesaToken (getMpesaToken ⟨none, none⟩ now1 (.fetchOk (some t))).1 now2 fetch2
        = ((getMpesaToken ⟨none, none⟩ now1 (.fetchOk (some t))).1, false, .ok (some t))) := by
  constructor
  · intro st now fetch t e ht hne he hlt
    have hv : tokenValid st now = true := by
      simp [tokenValid, ht, he, hne, hlt]
    simp [getMpesaToken, hv, ht]
  · intro t now1 now2 fetch2 hne hlt
    have hv1 : tokenValid ⟨none, none⟩ now1 = false := by simp [tokenValid]
    constructor
    · simp [getMpesaToken, hv1]
    · have hst : (getMpesaToken ⟨none, none⟩ now1 (.fetchOk (some t))).1
          = ⟨some t, some (now1 + tokenLifetime)⟩ := by
        simp [getMpesaToken, hv1]
      rw [hst]
      have hv2 : tokenValid ⟨some t, some (now1 + tokenLifetime)⟩ now2 = true := by
        simp [tokenValid, hne, hlt]
      simp [getMpesaToken, hv2]

/-- Witness for C6: a concrete cache hit, and a concrete pair of calls
within the validity window making one request. -/
theorem token_cache_hit_skips_network_witness :
    getMpesaToken ⟨some "tok", some 10⟩ 5 .fetchFail = (⟨some "tok", some 10⟩, false, .ok (some "tok")) ∧
    ((getMpesaToken ⟨none, none⟩ 0 (.fetchOk (some "tok"))).2.1 = true ∧
     getMpesaToken (getMpesaToken ⟨none, none⟩ 0 (.fetchOk (some "tok"))).1 20 .fetchFail
       = ((getMpesaToken ⟨none, none⟩ 0 (.fetchOk (some "tok"))).1, false, .ok (some "tok"))) :=
  ⟨token_cache_hit_skips_network.1 ⟨some "tok", some 10⟩ 5 .fetchFail "tok" 10
      rfl (by decide) rfl (by decide),
   token_cache_hit_skips_network.2 "tok" 0 20 .fetchFail (by decide) (by decide)⟩

/-- Helper for C7: the metadata loop never changes `result_code`. -/
theorem procItems_result_code : ∀ (items : List Val) (td td' : TransactionDetails),
    procItems items td = .ok td' → td'.result_code = td.result_code := by
  intro items
  induction items with
  | nil =>
    intro td td' h
    simp only [procItems] at h
    injection h with h
    rw [h]
  | cons item rest ih =>
    intro td td' h
    simp only [procItems] at h
    cases item with
    | vdict es =>
      have := ih _ _ h
      rw [this]
      split
      · rfl
      split
      · rfl
      split
      · rfl
      split
      · rfl
      · rfl
    | vnull => exact absurd h (by simp)
    | vbool b => exact absurd h (by simp)
    | vint n => exact absurd h (by simp)
    | vstr s => exact absurd h (by simp)
    | vlist xs => exact absurd h (by simp)

/-- Helper for C7: iterating any `Item` value never changes `result_code`. -/
theorem iterItems_result_code (v : Val) (td td' : TransactionDetails)
    (h : iterItems v td = .ok td') : td'.result_code = td.result_code := by
  cases v with
  | vlist items => exact procItems_result_code items td td' h
  | vdict es =>
    cases es with
    | nil => simp only [iterItems] at h; injection h with h; rw [h]
    | cons e es => exact absurd h (by simp [iterItems])
  | vstr s =>
    simp only [iterItems] at h
    split at h
    · injection h with h; rw [h]
    · exact absurd h (by simp)
  | vnull => exact absurd h (by simp [iterItems])
  | vbool b => exact absurd h (by simp [iterItems])
  | vint n => exact absurd h (by simp [iterItems])

/-- Helper for C7: a non-zero `result_code` leaves the success-only fields
of any outcome produced by `processStk` at `None`. -/
theorem processStk_ok_of_failure (stk : Val) (td : TransactionDetails)
    (h : processStk stk = .ok td) (hrc : pyEqZero td.result_code = false) :
    td.amount = .vnull ∧ td.mpesa_receipt_number = .vnull ∧
    td.transaction_date = .vnull ∧ td.phone_number = .vnull := by
  cases stk with
  | vdict es =>
    simp only [processStk] at h
    split at h
    · next hcond =>
        split at h
        · have := iterItems_result_code _ _ _ h
          rw [this] at hrc
          rw [hrc] at hcond
          exact absurd hcond (by simp)
        · exact absurd h (by simp)
    · injection h with h
      rw [← h]
      exact ⟨rfl, rfl, rfl, rfl⟩
  | vnull => exact absurd h (by simp [processStk])
  | vbool b => exact absurd h (by simp [processStk])
  | vint n => exact absurd h (by simp [processStk])
  | vstr s => exact absurd h (by simp [processStk])
  | vlist xs => exact absurd h (by simp [processStk])

/-- C7: for every callback payload on which `process_callback` succeeds with
a result code not Python-equal to 0 (which includes every present non-zero
`ResultCode`), the four success-only fields of the outcome are unset,
regardless of any metadata items present in the payload. -/
theorem failure_callback_success_fields_unset (cb : Val) (td : TransactionDetails)
    (h : process_callback cb = .ok td) (hrc : pyEqZero td.result_code = false) :
    td.amount = .vnull ∧ td.mpesa_receipt_number = .vnull ∧
    td.transaction_date = .vnull ∧ td.phone_number = .vnull := by
  simp only [process_callback] at h
  split at h
  · next td0 hin =>
      injection h with h
      subst h
      cases cb with
      | vdict es =>
        simp only [processCallbackInner] at hin
        cases hb : (lookupVal es "Body").getD (Val.vdict []) with
        | vdict bs =>
          rw [hb] at hin
          exact processStk_ok_of_failure _ _ hin hrc
        | vnull => rw [hb] at hin; exact absurd hin (by simp)
        | vbool b => rw [hb] at hin; exact absurd hin (by simp)
        | vint n => rw [hb] at hin; exact absurd hin (by simp)
        | vstr s => rw [hb] at hin; exact absurd hin (by simp)
        | vlist xs => rw [hb] at hin; exact absurd hin (by simp)
      | vnull => exact absurd hin (by simp [processCallbackInner])
      | vbool b => exact absurd hin (by simp [processCallbackInner])
      | vint n => exact absurd hin (by simp [processCallbackInner])
      | vstr s => exact absurd hin (by simp [processCallbackInner])
      | vlist xs => exact absurd hin (by simp [processCallbackInner])
  · exact absurd h (by simp)

/-- Witness for C7: a failed callback carrying an `Amount` metadata item
still yields an outcome with all four success-only fields unset. -/
theorem failure_callback_success_fields_unset_witness :
    process_callback c7payload = .ok c7details ∧
    pyEqZero c7details.result_code = false ∧
    (c7details.amount = .vnull ∧ c7details.mpesa_receipt_number = .vnull ∧
     c7details.transaction_date = .vnull ∧ c7details.phone_number = .vnull) :=
  ⟨rfl, rfl, failure_callback_success_fields_unset c7payload c7details rfl rfl⟩

/-- C8: the claim says an unnormalizable phone number makes `send_stk_push`
propagate the `InvalidPhoneFormat` error to its caller.  The code instead
catches the `ValueError` and returns the `(jsonify(...), 400)` tuple as a
normal return value (`Except.ok`), which the caller treats as a successful
checkout id. -/
theorem send_stk_push_returns_error_response :
    send_stk_push ⟨none, none⟩ 0 (.fetchOk (some "tok")) (.okResp (some "ws_CO_1")) "12345" 1 =
      .ok (.httpErrorResponse "Invalid phone number format. Must start with +254, 07, or 7." 400) ∧
    (send_stk_push ⟨none, none⟩ 0 (.fetchOk (some "tok")) (.okResp (some "ws_CO_1")) "12345" 1).isOk
      = true :=
  ⟨rfl, rfl⟩

/-- Helper for C9: filtering digits is idempotent. -/
theorem filter_isDigit_idem (l : List Char) :
    (l.filter Char.isDigit).filter Char.isDigit = l.filter Char.isDigit := by
  simp [List.filter_filter]

/-- Helper for C9: `lstrip07` only removes characters, so membership in its
output implies membership in its input. -/
theorem lstrip07_subset {c : Char} : ∀ {l : List Char}, c ∈ lstrip07 l → c ∈ l := by
  intro l
  induction l with
  | nil => intro h; simp [lstrip07] at h
  | cons a as ih =>
    intro h
    by_cases ha : a = '0' ∨ a = '7'
    · rw [lstrip07, if_pos ha] at h
      exact List.mem_cons_of_mem _ (ih h)
    · rwa [lstrip07, if_neg ha] at h

/-- C9: `normalize_phone_number` is idempotent — every successful output is
a digits-only string starting with `254`, and such strings are returned
unchanged by a second application. -/
theorem normalize_phone_number_idempotent (s r : String)
    (h : normalize_phone_number s = .ok r) :
    normalize_phone_number r = .ok r := by
  simp only [normalize_phone_number] at h
  split at h
  · next hpre =>
      obtain rfl : String.mk (s.data.filter Char.isDigit) = r := by injection h
      simp only [normalize_phone_number]
      rw [filter_isDigit_idem, if_pos hpre]
  · split at h
    · next hpre2 =>
        obtain rfl : String.mk ('2' :: '5' :: '4' :: lstrip07 (s.data.filter Char.isDigit)) = r := by
          injection h
        simp only [normalize_phone_number]
        have hall : ∀ c ∈ '2' :: '5' :: '4' :: lstrip07 (s.data.filter Char.isDigit),
            Char.isDigit c = true := by
          intro c hc
          simp only [List.mem_cons] at hc
          rcases hc with rfl | rfl | rfl | hc
          · decide
          · decide
          · decide
          · exact List.of_mem_filter (lstrip07_subset hc)
        rw [List.filter_eq_self.mpr hall, if_pos (by simp [List.isPrefixOf])]
    · exact absurd h (by simp)

/-- Witness for C9 at a concrete input and its normalized output. -/
theorem normalize_phone_number_idempotent_witness :
    normalize_phone_number "0711222333" = .ok "25411222333" ∧
    normalize_phone_number "25411222333" = .ok "25411222333" :=
  ⟨rfl, normalize_phone_number_idempotent "0711222333" "25411222333" rfl⟩

/-- C10: `store_transaction_details` is atomic on error — whenever the
append fails (missing key, NOT NULL violation, or commit failure), the
rollback leaves the committed rows unchanged and the error is re-raised
(returned as `Except.error`, never swallowed). -/
theorem store_error_rolls_back (db : List Row) (d : List (String × Val)) (c : Bool)
    (e : PyErr) (h : (store_transaction_details db d c).2 = .error e) :
    (store_transaction_details db d c).1 = db := by
  simp only [store_transaction_details] at h ⊢
  cases h1 : lookupVal d "checkout_request_id" with
  | none => simp [h1]
  | some cri =>
    cases h2 : lookupVal d "result_code" with
    | none => simp [h1, h2]
    | some rc =>
      cases h3 : lookupVal d "result_desc" with
      | none => simp [h1, h2, h3]
      | some rd =>
        simp only [h1, h2, h3] at h ⊢
        by_cases hn : (isNull rc || isNull rd) = true
        · simp [hn]
        · cases c with
          | true => simp [hn] at h
          | false => simp [hn]

/-- Witness for C10: a commit failure on well-formed details raises and
leaves the store empty. -/
theorem store_error_rolls_back_witness :
    (store_transaction_details [] c10details false).2 = .error .dbError ∧
    (store_transaction_details [] c10details false).1 = [] :=
  ⟨rfl, store_error_rolls_back [] c10details false .dbError rfl⟩
